import Mathlib

/-!
Shallow embedding of the assessment engine of the `lms` repository
(`src/core/models.py`): the quiz / question / choice / answer-key data
model, the attempt lifecycle and the auto-grading algorithm, together
with theorems settling the specification claims about them.

Conventions of the embedding:
- Django model instances become Lean structures; related managers
  (`quiz.questions`, `question.choices`, `question.answer_keys`,
  `attempt.answers`) become list- or set-valued fields or explicit
  parameters.
- Timestamps are integers, with an explicit `now` parameter standing
  for `timezone.now()`.
- Python `Decimal`/float marks become `ℚ`.
- Methods that can raise `ValidationError` return `Except String`;
  a Python exception escaping `auto_grade` (the `ZeroDivisionError` of
  the multi-choice partial branch, or the `ValidationError` its
  `self.save()` → `full_clean()` raises for an empty short-answer
  text) is modelled by `Option` with `none` for the raised exception.
-/

/-- Lifecycle states of a quiz (`Quiz.StatusChoices`). -/
inductive QuizStatus where
  | draft
  | published
  | closed
deriving DecidableEq, Repr

/-- Question types (`Question.QuestionType`). -/
inductive QuestionType where
  | mcq_single
  | mcq_multiple
  | true_false
  | short_answer
deriving DecidableEq, Repr

/-- Attempt lifecycle states (`QuizAttempt.StatusChoices`). -/
inductive AttemptStatus where
  | in_progress
  | submitted
  | graded
deriving DecidableEq, Repr

/-- A quiz (`Quiz`): lifecycle state, duration, attempt cap and the
optional start/end window. -/
structure Quiz where
  status : QuizStatus
  duration_minutes : Nat
  max_attempts : Nat
  start_time : Option Int
  end_time : Option Int
deriving DecidableEq, Repr

/-- One answer option of a choice-based question (`Choice`). -/
structure Choice where
  id : Nat
  answer : String
  is_correct : Bool
  order : Nat
deriving DecidableEq, Repr

/-- A question (`Question`) together with its related choices
(`question.choices`) and stored short-answer keys
(`question.answer_keys`, already normalized at save time). -/
structure Question where
  question_type : QuestionType
  marks : Nat
  order : Nat
  choices : List Choice
  answer_keys : List String
deriving DecidableEq, Repr

/-- One student's run through a quiz (`QuizAttempt`). -/
structure QuizAttempt where
  attempt_number : Nat
  status : AttemptStatus
  marks_obtained : Option ℚ
  started_at : Int
  submitted_at : Option Int
deriving DecidableEq, Repr

/-- A student's recorded response to one question (`StudentAnswer`).
`selected_choice` serves single-choice and true/false questions,
`selected_choices` (a set of choice ids, the M2M relation) serves
multi-choice questions and `text_answer` serves short-answer ones.
`is_correct` and `marks_awarded` are null until graded. -/
structure StudentAnswer where
  selected_choice : Option Choice
  selected_choices : Finset Nat
  text_answer : Option String
  is_correct : Option Bool
  marks_awarded : Option ℚ
deriving DecidableEq

/-- Whether an `Except` computation raised (`ValidationError` surfaced
to the caller). -/
def errored : Except String α → Bool
  | Except.error _ => true
  | Except.ok _ => false

/-- `Quiz.is_active`: true only when the quiz is published, both window
bounds are set and `start_time ≤ now ≤ end_time`. -/
def Quiz.is_active (q : Quiz) (now : Int) : Bool :=
  match q.status, q.start_time, q.end_time with
  | QuizStatus.published, some s, some e => s ≤ now && now ≤ e
  | _, _, _ => false

/-- `Quiz.is_past_due`: true when an end time is set and now is past it. -/
def Quiz.is_past_due (q : Quiz) (now : Int) : Bool :=
  match q.end_time with
  | some e => e < now
  | none => false

/-- `Quiz.clean`: when both start and end time are set, reject
`end ≤ start` and an end time in the past; otherwise accept. -/
def Quiz.clean (q : Quiz) (now : Int) : Except String Unit :=
  match q.start_time, q.end_time with
  | some s, some e =>
    if e ≤ s then Except.error "End time must be after start time."
    else if e < now then Except.error "End time cannot be in the past."
    else Except.ok ()
  | _, _ => Except.ok ()

/-- Python `str.strip` on the code's answer text: drop leading and
trailing whitespace. -/
def pyStrip (s : String) : String :=
  ⟨((s.data.dropWhile Char.isWhitespace).reverse.dropWhile
    Char.isWhitespace).reverse⟩

/-- Python `str.lower` on the code's answer text: character-wise
lowercasing. -/
def pyLower (s : String) : String :=
  ⟨s.data.map Char.toLower⟩

/-- `Question.correct_choices`: the choices flagged correct. -/
def Question.correct_choices (q : Question) : List Choice :=
  q.choices.filter (fun c => c.is_correct)

/-- The set of ids of the correct choices (the set the grading engine
builds from `question.correct_choices.values_list`). -/
def Question.correct_choice_ids (q : Question) : Finset Nat :=
  (q.correct_choices.map Choice.id).toFinset

/-- `Question.clean`: questions may only be added or edited while the
owning quiz is in Draft status. -/
def Question.clean (quizStatus : QuizStatus) : Except String Unit :=
  if quizStatus ≠ QuizStatus.draft then
    Except.error "Questions can only be added or edited while the quiz is in Draft status."
  else Except.ok ()

/-- `Question.save`: auto-assign order (sibling max + 1, else 1) when
unset, then run `full_clean` and persist only on success. -/
def Question.save (q : Question) (quizStatus : QuizStatus)
    (siblingMaxOrder : Option Nat) : Except String Question :=
  let q2 : Question :=
    if q.order = 0 then
      { q with order := match siblingMaxOrder with | some m => m + 1 | none => 1 }
    else q
  match Question.clean quizStatus with
  | Except.error e => Except.error e
  | Except.ok _ => Except.ok q2

/-- `Choice.clean`: draft-only mutation, no choices on short-answer
questions, at most one correct choice on single-choice questions,
true/false labels restricted to "true"/"false" with at most two
choices. `otherCorrectExists` is whether another choice of the same
question is already flagged correct; `otherChoiceCount` is the number
of other existing choices of the question. -/
def Choice.clean (c : Choice) (questionType : QuestionType)
    (quizStatus : QuizStatus) (otherCorrectExists : Bool)
    (otherChoiceCount : Nat) : Except String Unit :=
  if quizStatus ≠ QuizStatus.draft then
    Except.error "Choices can only be added or edited while the quiz is in Draft status."
  else if questionType = QuestionType.short_answer then
    Except.error "Short answer questions cannot have choices."
  else if questionType = QuestionType.mcq_single && c.is_correct && otherCorrectExists then
    Except.error "Single answer MCQ can only have one correct answer."
  else if questionType = QuestionType.true_false then
    if pyLower (pyStrip c.answer) ≠ "true" && pyLower (pyStrip c.answer) ≠ "false" then
      Except.error "True/False choices must be True or False."
    else if otherChoiceCount ≥ 2 then
      Except.error "True/False questions can only have 2 choices."
    else Except.ok ()
  else Except.ok ()

/-- `Choice.save`: auto-assign order when unset, then `full_clean` and
persist only on success. -/
def Choice.save (c : Choice) (questionType : QuestionType)
    (quizStatus : QuizStatus) (otherCorrectExists : Bool)
    (otherChoiceCount : Nat) (siblingMaxOrder : Option Nat) :
    Except String Choice :=
  let c2 : Choice :=
    if c.order = 0 then
      { c with order := match siblingMaxOrder with | some m => m + 1 | none => 1 }
    else c
  match Choice.clean c2 questionType quizStatus otherCorrectExists otherChoiceCount with
  | Except.error e => Except.error e
  | Except.ok _ => Except.ok c2

/-- Normalization applied to short-answer key text in
`ShortAnswerKey.save` before validation and persistence. -/
def ShortAnswerKey.normalize (s : String) : String :=
  pyLower (pyStrip s)

/-- `ShortAnswerKey.clean`: keys only on short-answer questions, and
only while the owning quiz is in Draft status. -/
def ShortAnswerKey.clean (questionType : QuestionType)
    (quizStatus : QuizStatus) : Except String Unit :=
  if questionType ≠ QuestionType.short_answer then
    Except.error "Answer keys can only be added to short answer questions."
  else if quizStatus ≠ QuizStatus.draft then
    Except.error "Answer keys can only be added while the quiz is in Draft status."
  else Except.ok ()

/-- `ShortAnswerKey.save`: normalize the text, then `full_clean` and
persist the normalized text only on success. -/
def ShortAnswerKey.save (text : String) (questionType : QuestionType)
    (quizStatus : QuizStatus) : Except String String :=
  match ShortAnswerKey.clean questionType quizStatus with
  | Except.error e => Except.error e
  | Except.ok _ => Except.ok (ShortAnswerKey.normalize text)

/-- `QuizAttempt.clean` on a fresh attempt (no primary key yet):
reject when the quiz is not active or the student's existing attempt
count has reached `max_attempts`; on success the attempt number to be
stored is `priorCount + 1`. -/
def QuizAttempt.clean (quiz : Quiz) (priorCount : Nat) (now : Int) :
    Except String Nat :=
  if ¬ quiz.is_active now then
    Except.error "This quiz is not currently active."
  else if priorCount ≥ quiz.max_attempts then
    Except.error "Maximum attempts reached for this quiz."
  else Except.ok (priorCount + 1)

/-- Creating a quiz attempt (`QuizAttempt.save` on a fresh record with
default field values): validation via `QuizAttempt.clean`, then the
row is written with status InProgress and `started_at = now`. -/
def startAttempt (quiz : Quiz) (priorCount : Nat) (now : Int) :
    Except String QuizAttempt :=
  match QuizAttempt.clean quiz priorCount now with
  | Except.error e => Except.error e
  | Except.ok n =>
    Except.ok { attempt_number := n, status := AttemptStatus.in_progress,
                marks_obtained := none, started_at := now, submitted_at := none }

/-- `QuizAttempt.is_fully_graded`: no child answer has a null
`marks_awarded`. -/
def QuizAttempt.is_fully_graded (answers : List StudentAnswer) : Bool :=
  answers.all (fun x => x.marks_awarded.isSome)

/-- `QuizAttempt.calculate_marks`: `marks_obtained` becomes the SQL
`Sum` of the children's `marks_awarded` (nulls ignored, `or 0` when
the sum is null), and status becomes Graded when fully graded, else
Submitted. -/
def QuizAttempt.calculate_marks (answers : List StudentAnswer)
    (a : QuizAttempt) : QuizAttempt :=
  { a with
    marks_obtained := some (answers.filterMap StudentAnswer.marks_awarded).sum,
    status :=
      if QuizAttempt.is_fully_graded answers then AttemptStatus.graded
      else AttemptStatus.submitted }

/-- `StudentAnswer.auto_grade`, dispatched on the parent question's
type. `none` models a Python exception escaping the method: the
`ZeroDivisionError` raised in the multi-choice partial-credit branch
when the question has no correct choices, and the `ValidationError`
raised in the short-answer branch when the text answer is missing or
empty — there the code assigns `is_correct = False`,
`marks_awarded = 0` but its `self.save()` runs `full_clean()`, whose
`StudentAnswer.clean` raises "Short answer questions require a text
answer.", so the grade is never recorded. A single-choice or
true/false answer with no selected choice is left untouched (the
method body is skipped, nothing is saved). -/
def StudentAnswer.auto_grade (a : StudentAnswer) (q : Question) :
    Option StudentAnswer :=
  match q.question_type with
  | QuestionType.mcq_single =>
    match a.selected_choice with
    | some c =>
      some { a with is_correct := some c.is_correct,
                    marks_awarded := some (if c.is_correct then (q.marks : ℚ) else 0) }
    | none => some a
  | QuestionType.true_false =>
    match a.selected_choice with
    | some c =>
      some { a with is_correct := some c.is_correct,
                    marks_awarded := some (if c.is_correct then (q.marks : ℚ) else 0) }
    | none => some a
  | QuestionType.mcq_multiple =>
    let correctIds := q.correct_choice_ids
    let selectedIds := a.selected_choices
    if selectedIds = ∅ then
      some { a with is_correct := some false, marks_awarded := some 0 }
    else if selectedIds = correctIds then
      some { a with is_correct := some true, marks_awarded := some (q.marks : ℚ) }
    else
      let totalCorrect := correctIds.card
      if totalCorrect = 0 then none
      else
        let markPerCorrect : ℚ := (q.marks : ℚ) / (totalCorrect : ℚ)
        let credit : ℚ :=
          ((((selectedIds ∩ correctIds).card : Int) -
            ((selectedIds \ correctIds).card : Int) : Int) : ℚ) * markPerCorrect
        some { a with is_correct := some false,
                      marks_awarded := some (max credit 0) }
  | QuestionType.short_answer =>
    match a.text_answer with
    | none => none
    | some t =>
      if t = "" then
        none
      else
        let s := (pyLower (pyStrip t))
        let ok := q.answer_keys.contains s
        some { a with is_correct := some ok,
                      marks_awarded := some (if ok then (q.marks : ℚ) else 0) }

/-- The grading loop of `QuizAttempt.auto_grade_all`: grade each child
answer in order; a raised exception aborts the whole loop. -/
def gradeAnswerList : List (Question × StudentAnswer) →
    Option (List (Question × StudentAnswer))
  | [] => some []
  | p :: rest =>
    match p.2.auto_grade p.1 with
    | none => none
    | some a2 =>
      match gradeAnswerList rest with
      | none => none
      | some rest2 => some ((p.1, a2) :: rest2)

/-- `QuizAttempt.auto_grade_all`: grade every child answer, then
recompute the attempt's marks and status with `calculate_marks`. -/
def QuizAttempt.auto_grade_all (answers : List (Question × StudentAnswer))
    (a : QuizAttempt) :
    Option (List (Question × StudentAnswer) × QuizAttempt) :=
  match gradeAnswerList answers with
  | none => none
  | some graded =>
    some (graded, QuizAttempt.calculate_marks (graded.map Prod.snd) a)

/-! ## Helper lemmas -/

/-- An end time strictly in the past forces `is_active` to be false,
whatever the status, start time and attempt count. -/
theorem is_active_false_of_past_end (quiz : Quiz) (now e : Int)
    (he : quiz.end_time = some e) (h : e < now) :
    quiz.is_active now = false := by
  unfold Quiz.is_active
  rcases hs : quiz.status <;> rcases hst : quiz.start_time <;> simp [he]
  omega

/-! ## Claim theorems -/

/-- C3: `startAttempt` fails with a validation error whenever the quiz
is not active or the prior attempt count equals `max_attempts`; on
success the attempt has `attempt_number = priorCount + 1`, status
InProgress and `started_at = now`; and a quiz whose end time is in the
past always fails, regardless of the attempt count. -/
theorem startAttempt_spec (quiz : Quiz) (priorCount : Nat) (now : Int) :
    ((quiz.is_active now = false ∨ priorCount = quiz.max_attempts) →
      errored (startAttempt quiz priorCount now) = true) ∧
    (∀ r, startAttempt quiz priorCount now = Except.ok r →
      r.attempt_number = priorCount + 1 ∧
      r.status = AttemptStatus.in_progress ∧ r.started_at = now) ∧
    (∀ e, quiz.end_time = some e → e < now →
      errored (startAttempt quiz priorCount now) = true) := by
  refine ⟨?_, ?_, ?_⟩
  · rintro (h | h)
    · simp [startAttempt, QuizAttempt.clean, h, errored]
    · by_cases hact : quiz.is_active now
      · simp [startAttempt, QuizAttempt.clean, hact, h, errored]
      · simp [startAttempt, QuizAttempt.clean, hact, errored]
  · intro r hr
    unfold startAttempt QuizAttempt.clean at hr
    split at hr
    · exact absurd hr (by simp)
    · cases hr
      rename_i x n heq
      split at heq
      · exact absurd heq (by simp)
      · split at heq
        · exact absurd heq (by simp)
        · cases heq
          exact ⟨rfl, rfl, rfl⟩
  · intro e he h
    have hact := is_active_false_of_past_end quiz now e he h
    simp [startAttempt, QuizAttempt.clean, hact, errored]

/-- C4: while the owning quiz is not in Draft status, every create or
update of a Question, Choice or ShortAnswerKey fails validation, and
the corresponding save never persists anything. -/
theorem draft_freeze_spec (quizStatus : QuizStatus)
    (h : quizStatus ≠ QuizStatus.draft) (q : Question) (c : Choice)
    (qt : QuestionType) (oc : Bool) (ocount : Nat) (sib : Option Nat)
    (keyText : String) :
    errored (Question.clean quizStatus) = true ∧
    errored (Question.save q quizStatus sib) = true ∧
    errored (Choice.clean c qt quizStatus oc ocount) = true ∧
    errored (Choice.save c qt quizStatus oc ocount sib) = true ∧
    errored (ShortAnswerKey.clean qt quizStatus) = true ∧
    errored (ShortAnswerKey.save keyText qt quizStatus) = true := by
  by_cases hqt : qt = QuestionType.short_answer <;>
    simp [Question.clean, Question.save, Choice.clean, Choice.save,
      ShortAnswerKey.clean, ShortAnswerKey.save, h, hqt, errored]

/-- C7 counterexample: a quiz whose end time (-5) is already in the
past at `now = 0` but whose start time is unset passes `Quiz.clean`
unrejected, so the rejection does not apply at every creation or
update where an end time is set. -/
theorem quiz_clean_accepts_past_end_without_start :
    (Quiz.mk QuizStatus.published 30 1 none (some (-5))).end_time = some (-5) ∧
    (-5 : Int) < 0 ∧
    Quiz.clean (Quiz.mk QuizStatus.published 30 1 none (some (-5))) 0 =
      Except.ok () :=
  ⟨rfl, by decide, rfl⟩

/-- C7 (amended): whenever BOTH start and end time are set, saving a
quiz with `end ≤ start` or with an end time in the past is rejected
with a validation error. -/
theorem quiz_clean_rejects_invalid_window (q : Quiz) (now s e : Int)
    (hs : q.start_time = some s) (he : q.end_time = some e)
    (h : e ≤ s ∨ e < now) : errored (Quiz.clean q now) = true := by
  unfold Quiz.clean
  rw [hs, he]
  rcases h with h | h
  · simp [h, errored]
  · by_cases h2 : e ≤ s <;> simp [h2, h, errored]

/-- C8: `calculate_marks` sets `marks_obtained` to the sum of the
children's non-null `marks_awarded` values (in particular `0` when
there are none), and sets status to Graded exactly when every child
answer has a non-null `marks_awarded`, else to Submitted. -/
theorem calculate_marks_spec (answers : List StudentAnswer) (a : QuizAttempt) :
    (QuizAttempt.calculate_marks answers a).marks_obtained =
      some (answers.filterMap StudentAnswer.marks_awarded).sum ∧
    (answers.filterMap StudentAnswer.marks_awarded = [] →
      (QuizAttempt.calculate_marks answers a).marks_obtained = some 0) ∧
    ((QuizAttempt.calculate_marks answers a).status = AttemptStatus.graded ↔
      ∀ x ∈ answers, x.marks_awarded ≠ none) ∧
    ((QuizAttempt.calculate_marks answers a).status = AttemptStatus.graded ∨
     (QuizAttempt.calculate_marks answers a).status = AttemptStatus.submitted) := by
  refine ⟨rfl, ?_, ?_, ?_⟩
  · intro hnil
    simp [QuizAttempt.calculate_marks, hnil]
  · unfold QuizAttempt.calculate_marks QuizAttempt.is_fully_graded
    by_cases hall : answers.all (fun x => x.marks_awarded.isSome) <;>
      simp_all [List.all_eq_true, Option.isSome_iff_ne_none]
  · unfold QuizAttempt.calculate_marks
    by_cases hall : QuizAttempt.is_fully_graded answers <;> simp [hall]

/-- C9: `calculate_marks` is a full recomputation from the current
child answers, so running it twice with the children unchanged gives
exactly the same attempt record (same marks_obtained and status) as
running it once. -/
theorem calculate_marks_idempotent (answers : List StudentAnswer)
    (a : QuizAttempt) :
    QuizAttempt.calculate_marks answers (QuizAttempt.calculate_marks answers a) =
      QuizAttempt.calculate_marks answers a := rfl

/-- C5: grading a single-choice or true/false answer with a selected
choice sets `is_correct` to the choice's correctness flag and
`marks_awarded` to `question.marks` when that flag is true, else `0`;
hence `marks_awarded ∈ {0, question.marks}` and `is_correct` holds
exactly when `marks_awarded = question.marks` (marks being a positive
integer in the data model). -/
theorem single_choice_grading_spec (q : Question) (a : StudentAnswer)
    (c : Choice)
    (hty : q.question_type = QuestionType.mcq_single ∨
      q.question_type = QuestionType.true_false)
    (hsel : a.selected_choice = some c) (hm : 0 < q.marks) :
    ∃ a2, a.auto_grade q = some a2 ∧
      a2.is_correct = some c.is_correct ∧
      a2.marks_awarded = some (if c.is_correct then (q.marks : ℚ) else 0) ∧
      (a2.marks_awarded = some 0 ∨ a2.marks_awarded = some (q.marks : ℚ)) ∧
      (a2.is_correct = some true ↔ a2.marks_awarded = some (q.marks : ℚ)) := by
  have hg : a.auto_grade q =
      some { a with
        is_correct := some c.is_correct,
        marks_awarded := some (if c.is_correct then (q.marks : ℚ) else 0) } := by
    rcases hty with hty | hty <;> simp [StudentAnswer.auto_grade, hty, hsel]
  have hmq : (0 : ℚ) < (q.marks : ℚ) := by exact_mod_cast hm
  refine ⟨_, hg, rfl, rfl, ?_, ?_⟩
  · cases hc : c.is_correct <;> simp [hc]
  · cases hc : c.is_correct <;> simp [hc]
    exact hmq.ne

/-- Partial-credit bound: selecting at most the `n` correct choices and
being charged for wrong selections never exceeds the question's marks. -/
theorem creditBound (i w n M : Nat) (hin : i ≤ n) (hn : 0 < n) :
    (((i : Int) - (w : Int) : Int) : ℚ) * ((M : ℚ) / (n : ℚ)) ≤ (M : ℚ) := by
  have hx : (((i : Int) - (w : Int) : Int) : ℚ) ≤ (n : ℚ) := by
    have h1 : (0:ℚ) ≤ (w:ℚ) := by positivity
    have h2 : (i:ℚ) ≤ (n:ℚ) := by exact_mod_cast hin
    push_cast
    linarith
  have hnQ : ((n : ℚ)) ≠ 0 := by
    exact_mod_cast hn.ne'
  calc (((i : Int) - (w : Int) : Int) : ℚ) * ((M : ℚ) / (n : ℚ))
      ≤ (n : ℚ) * ((M : ℚ) / (n : ℚ)) :=
        mul_le_mul_of_nonneg_right hx (by positivity)
    _ = (M : ℚ) := by field_simp

/-- C1: grading a multi-choice answer against a question with at least
one correct choice: an empty selection is incorrect with 0 marks,
selecting exactly the correct set is correct with full marks, and any
other selection is incorrect with partial credit
`max(0, (|S∩C| − |S\C|) × (marks / |C|))`; in all cases the awarded
marks lie between 0 and the question's marks. -/
theorem mcq_multiple_grading_spec (q : Question) (a : StudentAnswer)
    (hty : q.question_type = QuestionType.mcq_multiple)
    (hC : 0 < q.correct_choice_ids.card) :
    ∃ a2, a.auto_grade q = some a2 ∧
      (a.selected_choices = ∅ →
        a2.is_correct = some false ∧ a2.marks_awarded = some 0) ∧
      (a.selected_choices = q.correct_choice_ids →
        a2.is_correct = some true ∧ a2.marks_awarded = some (q.marks : ℚ)) ∧
      (a.selected_choices ≠ ∅ → a.selected_choices ≠ q.correct_choice_ids →
        a2.is_correct = some false ∧
        a2.marks_awarded = some (max 0
          ((((a.selected_choices ∩ q.correct_choice_ids).card : ℚ) -
            ((a.selected_choices \ q.correct_choice_ids).card : ℚ)) *
           ((q.marks : ℚ) / (q.correct_choice_ids.card : ℚ))))) ∧
      (∀ m, a2.marks_awarded = some m → 0 ≤ m ∧ m ≤ (q.marks : ℚ)) := by
  have hCne : q.correct_choice_ids ≠ ∅ := (Finset.card_pos.mp hC).ne_empty
  by_cases hS : a.selected_choices = ∅
  · have hg : a.auto_grade q =
        some { a with is_correct := some false, marks_awarded := some 0 } := by
      simp [StudentAnswer.auto_grade, hty, hS]
    refine ⟨_, hg, fun _ => ⟨rfl, rfl⟩, ?_, ?_, ?_⟩
    · intro hSC
      rw [hS] at hSC
      exact absurd hSC.symm hCne
    · intro h1 _
      exact absurd hS h1
    · intro m hm
      cases hm
      exact ⟨le_refl 0, by positivity⟩
  · by_cases hSC : a.selected_choices = q.correct_choice_ids
    · have hg : a.auto_grade q =
          some { a with
            is_correct := some true, marks_awarded := some (q.marks : ℚ) } := by
        simp [StudentAnswer.auto_grade, hty, hSC, hCne]
      refine ⟨_, hg, ?_, fun _ => ⟨rfl, rfl⟩, ?_, ?_⟩
      · intro h
        exact absurd h hS
      · intro _ h
        exact absurd hSC h
      · intro m hm
        cases hm
        exact ⟨by positivity, le_refl _⟩
    · have hg : a.auto_grade q =
          some { a with
            is_correct := some false,
            marks_awarded := some (max
              (((((a.selected_choices ∩ q.correct_choice_ids).card : Int) -
                 ((a.selected_choices \ q.correct_choice_ids).card : Int) : Int) : ℚ) *
               ((q.marks : ℚ) / (q.correct_choice_ids.card : ℚ))) 0) } := by
        simp [StudentAnswer.auto_grade, hty, hS, hSC, hC.ne']
      refine ⟨_, hg, ?_, ?_, ?_, ?_⟩
      · intro h
        exact absurd h hS
      · intro h
        exact absurd h hSC
      · intro _ _
        refine ⟨rfl, ?_⟩
        have hcast : ((((a.selected_choices ∩ q.correct_choice_ids).card : Int) -
            ((a.selected_choices \ q.correct_choice_ids).card : Int) : Int) : ℚ) =
            (((a.selected_choices ∩ q.correct_choice_ids).card : ℚ) -
             ((a.selected_choices \ q.correct_choice_ids).card : ℚ)) := by
          push_cast
          ring
        show some _ = _
        rw [max_comm, hcast]
      · intro m hm
        cases hm
        refine ⟨le_max_right _ _, max_le ?_ (by positivity)⟩
        exact creditBound _ _ _ q.marks
          (Finset.card_le_card Finset.inter_subset_right) hC

/-- A multi-choice question whose author flagged no choice as correct,
paired with a non-empty student selection: the degenerate input of C2. -/
def noCorrectQuestion : Question :=
  { question_type := QuestionType.mcq_multiple, marks := 5, order := 1,
    choices := [{ id := 1, answer := "A", is_correct := false, order := 1 },
                { id := 2, answer := "B", is_correct := false, order := 2 }],
    answer_keys := [] }

/-- A student answer selecting choice 1 of `noCorrectQuestion`. -/
def noCorrectAnswer : StudentAnswer :=
  { selected_choice := none, selected_choices := {1}, text_answer := none,
    is_correct := none, marks_awarded := none }

/-- C2: with zero correct choices and a non-empty selection the grader
reaches the partial-credit branch and computes `marks / 0`, raising
`ZeroDivisionError` (modelled as `none`) instead of awarding 0 marks as
the specification requires. -/
theorem mcq_multiple_zero_correct_raises :
    noCorrectQuestion.correct_choice_ids = ∅ ∧
    noCorrectAnswer.selected_choices ≠ ∅ ∧
    noCorrectAnswer.auto_grade noCorrectQuestion = none := by
  refine ⟨by decide, by decide, ?_⟩
  rfl

/-- A graded answer list keeps any entry whose grading left it
unchanged. -/
theorem gradeAnswerList_mem {answers graded : List (Question × StudentAnswer)}
    {q : Question} {ans : StudentAnswer}
    (hmem : (q, ans) ∈ answers) (hid : ans.auto_grade q = some ans)
    (hg : gradeAnswerList answers = some graded) : (q, ans) ∈ graded := by
  induction answers generalizing graded with
  | nil => cases hmem
  | cons p rest ih =>
    rw [gradeAnswerList] at hg
    rcases List.mem_cons.mp hmem with heq | hmem2
    · rw [← heq] at hg
      dsimp only at hg
      rw [hid] at hg
      cases hrest : gradeAnswerList rest with
      | none =>
        rw [hrest] at hg
        exact absurd hg (by simp)
      | some rest2 =>
        rw [hrest] at hg
        cases hg
        exact List.mem_cons_self _ _
    · cases hp : p.2.auto_grade p.1 with
      | none =>
        rw [hp] at hg
        exact absurd hg (by simp)
      | some a2 =>
        rw [hp] at hg
        cases hrest : gradeAnswerList rest with
        | none =>
          rw [hrest] at hg
          exact absurd hg (by simp)
        | some rest2 =>
          rw [hrest] at hg
          cases hg
          exact List.mem_cons_of_mem _ (ih hmem2 hrest)

/-- C10: grading a single-choice or true/false answer whose selected
choice reference is null is a silent no-op (the answer keeps its null
`is_correct` and `marks_awarded`), and after `auto_grade_all` the
owning attempt still has an ungraded answer, so its status is set to
Submitted, never Graded. -/
theorem null_choice_grading_noop (q : Question) (ans : StudentAnswer)
    (answers : List (Question × StudentAnswer)) (a : QuizAttempt)
    (hty : q.question_type = QuestionType.mcq_single ∨
      q.question_type = QuestionType.true_false)
    (hsel : ans.selected_choice = none) (hmarks : ans.marks_awarded = none)
    (hmem : (q, ans) ∈ answers) :
    ans.auto_grade q = some ans ∧
    (∀ graded a2, QuizAttempt.auto_grade_all answers a = some (graded, a2) →
      (q, ans) ∈ graded ∧ a2.status = AttemptStatus.submitted) := by
  have hid : ans.auto_grade q = some ans := by
    rcases hty with hty | hty <;> simp [StudentAnswer.auto_grade, hty, hsel]
  refine ⟨hid, ?_⟩
  intro graded a2 h
  unfold QuizAttempt.auto_grade_all at h
  cases hgl : gradeAnswerList answers with
  | none =>
    rw [hgl] at h
    exact absurd h (by simp)
  | some g =>
    rw [hgl] at h
    rw [Option.some_inj, Prod.ext_iff] at h
    obtain ⟨hgr, ha2⟩ := h
    dsimp only at hgr ha2
    have hmemg : (q, ans) ∈ g := gradeAnswerList_mem hmem hid hgl
    refine ⟨hgr ▸ hmemg, ?_⟩
    have hmem2 : ans ∈ g.map Prod.snd := List.mem_map.mpr ⟨(q, ans), hmemg, rfl⟩
    have hfg : QuizAttempt.is_fully_graded (g.map Prod.snd) = false := by
      unfold QuizAttempt.is_fully_graded
      cases h4 : (g.map Prod.snd).all (fun x => x.marks_awarded.isSome) with
      | false => rfl
      | true =>
        have h5 := List.all_eq_true.mp h4 ans hmem2
        rw [hmarks] at h5
        exact absurd h5 (by simp)
    rw [← ha2]
    simp [QuizAttempt.calculate_marks, hfg]

/-! ## Concrete instances and witnesses -/

/-- A published quiz with window [0, 100] allowing 2 attempts. -/
def demoQuiz : Quiz :=
  { status := QuizStatus.published, duration_minutes := 30, max_attempts := 2,
    start_time := some 0, end_time := some 100 }

/-- The specification's worked multi-choice example: 9 marks, correct
set {A, B, C} and a wrong choice D. -/
def mcqExampleQuestion : Question :=
  { question_type := QuestionType.mcq_multiple, marks := 9, order := 1,
    choices := [{ id := 1, answer := "A", is_correct := true, order := 1 },
                { id := 2, answer := "B", is_correct := true, order := 2 },
                { id := 3, answer := "C", is_correct := true, order := 3 },
                { id := 4, answer := "D", is_correct := false, order := 4 }],
    answer_keys := [] }

/-- A student selecting {A, B} on `mcqExampleQuestion`. -/
def mcqExampleAnswer : StudentAnswer :=
  { selected_choice := none, selected_choices := {1, 2}, text_answer := none,
    is_correct := none, marks_awarded := none }

/-- Witness for C1 at the spec's worked example: selecting {A, B} out
of correct set {A, B, C} on a 9-mark question awards (2 − 0) × 3 = 6
partial marks while remaining not fully correct. -/
theorem mcq_multiple_grading_witness :
    ∃ a2, mcqExampleAnswer.auto_grade mcqExampleQuestion = some a2 ∧
      a2.is_correct = some false ∧ a2.marks_awarded = some 6 := by
  obtain ⟨a2, hg, _, _, hp, _⟩ :=
    mcq_multiple_grading_spec mcqExampleQuestion mcqExampleAnswer rfl (by decide)
  obtain ⟨hc, hm⟩ := hp (by decide) (by decide)
  refine ⟨a2, hg, hc, ?_⟩
  rw [hm]
  rw [show (mcqExampleAnswer.selected_choices ∩
    mcqExampleQuestion.correct_choice_ids).card = 2 from by decide]
  rw [show (mcqExampleAnswer.selected_choices \
    mcqExampleQuestion.correct_choice_ids).card = 0 from by decide]
  rw [show mcqExampleQuestion.correct_choice_ids.card = 3 from by decide]
  rw [show mcqExampleQuestion.marks = 9 from rfl]
  norm_num

/-- Witness for C3: with 2 prior attempts (= max_attempts) creation
fails; with none it succeeds as attempt number 1, InProgress, started
now; and past the end time (now = 200 > 100) creation fails. -/
theorem startAttempt_witness :
    errored (startAttempt demoQuiz 2 50) = true ∧
    startAttempt demoQuiz 0 50 = Except.ok
      { attempt_number := 1, status := AttemptStatus.in_progress,
        marks_obtained := none, started_at := 50, submitted_at := none } ∧
    errored (startAttempt demoQuiz 0 200) = true :=
  ⟨(startAttempt_spec demoQuiz 2 50).1 (Or.inr rfl), rfl,
   (startAttempt_spec demoQuiz 0 200).2.2 100 rfl (by decide)⟩

/-- A single-choice question used in witnesses. -/
def demoQuestion : Question :=
  { question_type := QuestionType.mcq_single, marks := 10, order := 1,
    choices := [{ id := 1, answer := "C1", is_correct := true, order := 1 }],
    answer_keys := [] }

/-- A choice used in witnesses. -/
def demoChoice : Choice :=
  { id := 1, answer := "C1", is_correct := true, order := 1 }

/-- Witness for C4: on a Published quiz every clean and save of a
Question, Choice or ShortAnswerKey raises a validation error. -/
theorem draft_freeze_witness :
    errored (Question.clean QuizStatus.published) = true ∧
    errored (Question.save demoQuestion QuizStatus.published none) = true ∧
    errored (Choice.clean demoChoice QuestionType.mcq_single
      QuizStatus.published false 0) = true ∧
    errored (Choice.save demoChoice QuestionType.mcq_single
      QuizStatus.published false 0 none) = true ∧
    errored (ShortAnswerKey.clean QuestionType.mcq_single
      QuizStatus.published) = true ∧
    errored (ShortAnswerKey.save "Paris" QuestionType.mcq_single
      QuizStatus.published) = true :=
  draft_freeze_spec QuizStatus.published (by decide) demoQuestion demoChoice
    QuestionType.mcq_single false 0 none "Paris"

/-- A student answer selecting the correct choice of `demoQuestion`. -/
def demoSingleAnswer : StudentAnswer :=
  { selected_choice := some demoChoice, selected_choices := ∅,
    text_answer := none, is_correct := none, marks_awarded := none }

/-- Witness for C5 at the spec's example: selecting the correct choice
of a 10-mark single-choice question grades (true, 10). -/
theorem single_choice_grading_witness :
    ∃ a2, demoSingleAnswer.auto_grade demoQuestion = some a2 ∧
      a2.is_correct = some true ∧ a2.marks_awarded = some 10 := by
  obtain ⟨a2, hg, hc, hm, _, _⟩ :=
    single_choice_grading_spec demoQuestion demoSingleAnswer demoChoice
      (Or.inl rfl) rfl (by decide)
  refine ⟨a2, hg, ?_, ?_⟩
  · rw [hc]
    decide
  · rw [hm]
    decide

/-- A short-answer question whose key "Paris" is stored normalized. -/
def parisQuestion : Question :=
  { question_type := QuestionType.short_answer, marks := 4, order := 1,
    choices := [], answer_keys := [ShortAnswerKey.normalize "Paris"] }

/-- A student submitting " paris " to `parisQuestion`. -/
def parisAnswer : StudentAnswer :=
  { selected_choice := none, selected_choices := ∅,
    text_answer := some " paris ", is_correct := none, marks_awarded := none }

/-- A short-answer student answer with no recorded text. -/
def emptyTextAnswer : StudentAnswer :=
  { selected_choice := none, selected_choices := ∅, text_answer := none,
    is_correct := none, marks_awarded := none }

/-- C6: code bug at the empty-answer clause. On a missing (or empty)
text answer the source assigns `is_correct = False`,
`marks_awarded = 0`, but its `self.save()` runs `full_clean()`, whose
`StudentAnswer.clean` raises ValidationError ("Short answer questions
require a text answer.") at exactly that input, so grading raises
(modelled `none`) instead of recording incorrect with 0 marks as the
claim requires. A non-empty submission is graded as the claim states:
the stored normalized key "paris" (from "Paris") matches " paris " for
full marks, case- and whitespace-insensitively. -/
theorem short_answer_empty_text_raises :
    emptyTextAnswer.text_answer = none ∧
    emptyTextAnswer.auto_grade parisQuestion = none ∧
    ShortAnswerKey.normalize "Paris" = "paris" ∧
    (parisAnswer.auto_grade parisQuestion).map StudentAnswer.is_correct =
      some (some true) ∧
    (parisAnswer.auto_grade parisQuestion).map StudentAnswer.marks_awarded =
      some (some 4) := by
  refine ⟨rfl, rfl, by decide, ?_, ?_⟩ <;> decide

/-- Witness for C7 (amended): with both bounds set, an end time both
at or before the start and in the past is rejected. -/
theorem quiz_clean_witness :
    errored (Quiz.clean (Quiz.mk QuizStatus.published 30 1 (some 0)
      (some (-5))) 0) = true :=
  quiz_clean_rejects_invalid_window _ 0 0 (-5) rfl rfl (Or.inl (by decide))

/-- A graded answer worth 3 marks. -/
def gradedAnswerA : StudentAnswer :=
  { selected_choice := none, selected_choices := ∅, text_answer := none,
    is_correct := some true, marks_awarded := some 3 }

/-- A graded answer worth 4 marks. -/
def gradedAnswerB : StudentAnswer :=
  { selected_choice := none, selected_choices := ∅, text_answer := none,
    is_correct := some false, marks_awarded := some 4 }

/-- A submitted attempt used in witnesses. -/
def demoAttempt : QuizAttempt :=
  { attempt_number := 1, status := AttemptStatus.submitted,
    marks_obtained := none, started_at := 0, submitted_at := some 10 }

/-- Witness for C8: two fully graded answers worth 3 and 4 yield
marks_obtained 7 and status Graded. -/
theorem calculate_marks_witness :
    (QuizAttempt.calculate_marks [gradedAnswerA, gradedAnswerB]
      demoAttempt).marks_obtained = some 7 ∧
    (QuizAttempt.calculate_marks [gradedAnswerA, gradedAnswerB]
      demoAttempt).status = AttemptStatus.graded := by
  obtain ⟨h1, _, h2, _⟩ :=
    calculate_marks_spec [gradedAnswerA, gradedAnswerB] demoAttempt
  refine ⟨?_, h2.mpr (by decide)⟩
  rw [h1]
  norm_num [gradedAnswerA, gradedAnswerB, List.filterMap_cons]

/-- A single-choice question for the orphaned-answer witness. -/
def orphanQuestion : Question :=
  { question_type := QuestionType.mcq_single, marks := 5, order := 1,
    choices := [], answer_keys := [] }

/-- An answer whose selected choice was nulled by a Choice deletion. -/
def orphanAnswer : StudentAnswer :=
  { selected_choice := none, selected_choices := ∅, text_answer := none,
    is_correct := none, marks_awarded := none }

/-- Witness for C10: grading the orphaned answer changes nothing, and
after `auto_grade_all` the attempt is Submitted, not Graded. -/
theorem null_choice_grading_witness :
    orphanAnswer.auto_grade orphanQuestion = some orphanAnswer ∧
    (QuizAttempt.calculate_marks [orphanAnswer] demoAttempt).status =
      AttemptStatus.submitted := by
  have h := null_choice_grading_noop orphanQuestion orphanAnswer
    [(orphanQuestion, orphanAnswer)] demoAttempt (Or.inl rfl) rfl rfl
    (List.mem_singleton.mpr rfl)
  obtain ⟨hmem, hstat⟩ := h.2 [(orphanQuestion, orphanAnswer)]
    (QuizAttempt.calculate_marks [orphanAnswer] demoAttempt) rfl
  exact ⟨h.1, hstat⟩
